import Mathlib

/-!
Verification of the Mahabir audio-processing transcript-correction pipeline
(`code-samples/services/correction_service.py`, `code-samples/services/openai_client.py`,
`code-samples/database/models.py`, `code-samples/database/db_operations.py`).

The Python code is shallowly embedded: pure functions become Lean functions,
the database becomes an explicit `Store` value threaded through the workflow
functions, Python exceptions become `Except` values, and the unreliable
remote call is abstracted by an oracle giving the outcome of each attempt.
Floating-point costs are modelled as exact rationals.

Collaborator modules that are not part of the code samples
(`services/srt_parser.py`, `services/local_processor.py`, `config.py`, and the
`database/managers/*` implementations behind `DatabaseManager`) are either
taken as parameters of the workflow functions or modelled from the spec; each
such definition carries a doc comment saying so.
-/

/-- `SRTEntry` from `services/srt_parser.py` (module not in the code samples;
field layout as used by `openai_client.py` and `correction_service.py`:
a 1-based index, start/end timestamps and the cue text). -/
structure SRTEntry where
  index : Nat
  start_time : String
  end_time : String
  text : String
deriving DecidableEq

/-- One element of a `corrections_made` array in the remote JSON response
(`{original, corrected, confidence}`). -/
structure CorrectionRec where
  original : String
  corrected : String
  confidence : Rat
deriving DecidableEq

/-- One element of the JSON array returned by the remote call.  The Python
code reads the fields of this dictionary with `dict.get` and a default, so
every field is modelled as optional. -/
structure Correction where
  timestamp : Option String
  original_text : Option String
  corrected_text : Option String
  corrections_made : Option (List CorrectionRec)
  needs_review : Option Bool
deriving DecidableEq

/-- The merge-record dictionary built by
`OpenAIClient.map_corrections_to_entries` (`openai_client.py`, lines 175-193):
`{"entry": ..., "corrected_text": ..., "corrections": ..., "needs_review": ...}`. -/
structure MappedCorrection where
  entry : SRTEntry
  corrected_text : String
  corrections : List CorrectionRec
  needs_review : Bool
deriving DecidableEq

/-- Body of the loop in `map_corrections_to_entries` for the entry at index
`i`: if a correction exists at position `i` its fields are read with
`dict.get` defaults (`corrected_text` defaults to the entry text,
`corrections_made` to `[]`, `needs_review` to `False`); otherwise the
original text is kept with an empty correction list. -/
def map_correction_body (corrections : List Correction) (i : Nat) (entry : SRTEntry) :
    MappedCorrection :=
  match corrections[i]? with
  | some correction =>
      { entry := entry
        corrected_text := correction.corrected_text.getD entry.text
        corrections := correction.corrections_made.getD []
        needs_review := correction.needs_review.getD false }
  | none =>
      { entry := entry
        corrected_text := entry.text
        corrections := []
        needs_review := false }

/-- The `for i, entry in enumerate(original_entries)` loop of
`map_corrections_to_entries`, carrying the running index `i`. -/
def map_corrections_aux (corrections : List Correction) :
    Nat → List SRTEntry → List MappedCorrection
  | _, [] => []
  | i, e :: rest => map_correction_body corrections i e :: map_corrections_aux corrections (i + 1) rest

/-- `OpenAIClient.map_corrections_to_entries` (`openai_client.py`, lines
162-193): maps remote corrections back onto the original entries by
position.  A pure total function, mirroring the Python static method. -/
def map_corrections_to_entries (original_entries : List SRTEntry)
    (corrections : List Correction) : List MappedCorrection :=
  map_corrections_aux corrections 0 original_entries

/-- `OpenAIClient.format_entries_for_prompt` (`openai_client.py`, lines
72-90): renders each entry as `index\nstart --> end\ntext\n` and joins the
blocks with newlines. -/
def format_entries_for_prompt (entries : List SRTEntry) : String :=
  String.intercalate "\n" (entries.map (fun e =>
    Nat.repr e.index ++ "\n" ++ e.start_time ++ " --> " ++ e.end_time ++ "\n" ++ e.text ++ "\n"))

/-- Outcome of one attempt of the remote chat-completion call followed by
`json.loads`: a parsed correction array, a `json.JSONDecodeError`, or any
other exception (transport/API error).  The network is abstracted by an
oracle `Nat → AttemptOutcome` giving the outcome of each attempt. -/
inductive AttemptOutcome where
  | ok (corrections : List Correction)
  | jsonError
  | apiError
deriving DecidableEq

/-- Whether an attempt outcome is a successful parse. -/
def AttemptOutcome.isOk : AttemptOutcome → Bool
  | .ok _ => true
  | _ => false

/-- The distinct error kinds raised by `correct_transcript_batch` after
exhausting retries: `ValueError("Failed to parse OpenAI response: ...")` for
a JSON decode failure, `Exception("OpenAI API error: ...")` for any other
exception, and the unreachable final
`Exception("Failed to get valid response from OpenAI after retries")`. -/
inductive CBError where
  | parseFailure
  | apiFailure
  | exhausted
deriving DecidableEq

/-- The error kind raised when the final attempt ends with the given
outcome (`json.JSONDecodeError` branch vs the generic `except` branch). -/
def failure_kind : AttemptOutcome → CBError
  | .jsonError => .parseFailure
  | _ => .apiFailure

/-- The `for attempt in range(retry_count)` loop of
`correct_transcript_batch` (`openai_client.py`, lines 106-135).  `fuel` is
the number of remaining iterations (invariant `attempt + fuel = retry_count`).
Returns the result together with the list of backoff sleeps (`2 ** attempt`
seconds), in order.  Exhausting the loop without returning reaches the final
`raise` on line 135. -/
def correct_batch_loop (oracle : Nat → AttemptOutcome) (retry_count : Nat) :
    Nat → Nat → Except CBError (List Correction) × List Nat
  | _, 0 => (.error .exhausted, [])
  | attempt, fuel + 1 =>
    match oracle attempt with
    | .ok corrections => (.ok corrections, [])
    | .jsonError =>
      if attempt < retry_count - 1 then
        match correct_batch_loop oracle retry_count (attempt + 1) fuel with
        | (r, sleeps) => (r, 2 ^ attempt :: sleeps)
      else (.error .parseFailure, [])
    | .apiError =>
      if attempt < retry_count - 1 then
        match correct_batch_loop oracle retry_count (attempt + 1) fuel with
        | (r, sleeps) => (r, 2 ^ attempt :: sleeps)
      else (.error .apiFailure, [])

/-- `OpenAIClient.correct_transcript_batch` (`openai_client.py`, lines
92-135).  The prompt built from the entries is behaviourally inert (the
fixed `CORRECTION_PROMPT` wrapper is constant text), so the attempt oracle
abstracts the response to the request built from `entries`.  Returns the
parsed corrections or the raised error, plus the backoff sleeps performed. -/
def correct_transcript_batch (entries : List SRTEntry) (oracle : Nat → AttemptOutcome)
    (retry_count : Nat) : Except CBError (List Correction) × List Nat :=
  let _prompt := format_entries_for_prompt entries
  correct_batch_loop oracle retry_count 0 retry_count

/-- `RawTranscript` from `database/models.py` (lines 11-54); the upload
timestamp is irrelevant to every claim and is not modelled. -/
structure RawTranscript where
  id : Option Nat
  filename : String
  file_content : String
  processing_status : String
deriving DecidableEq

/-- `ProcessedEntry` from `database/models.py` (lines 57-88); the creation
timestamp is irrelevant to every claim and is not modelled.  Constructor
defaults in Python: `corrections_made=[]`, `confidence_score=0.0`,
`needs_review=False`, `api_cost=0.0`, `needs_openai=False`,
`openai_processed=False`. -/
structure ProcessedEntry where
  id : Option Nat
  raw_transcript_id : Option Nat
  timestamp_start : String
  timestamp_end : String
  original_text : String
  corrected_text : String
  corrections_made : List CorrectionRec
  confidence_score : Rat
  needs_review : Bool
  api_cost : Rat
  needs_openai : Bool
  openai_processed : Bool
deriving DecidableEq

/-- One result dictionary of `LocalProcessor.process_entries`
(`services/local_processor.py`, not in the code samples; shape as consumed
by `_process_all_batches_locally`: `result["corrected_text"]` and
`result["corrections"]` are read unconditionally, the remaining keys with
`dict.get` defaults, hence the optional fields). -/
structure LocalResult where
  corrected_text : String
  corrections : List CorrectionRec
  confidence : Option Rat
  needs_review : Option Bool
  needs_openai : Option Bool
deriving DecidableEq

/-- The database reached through `DatabaseManager`
(`database/db_operations.py`), as explicit state: the raw transcripts and
the processed entries.  `statusLog` is verification instrumentation: it
records, in order, every status written through
`update_raw_transcript_status`. -/
structure Store where
  transcripts : List RawTranscript
  entries : List ProcessedEntry
  statusLog : List String
deriving DecidableEq

/-- Modelled from the spec: `DatabaseManager.get_raw_transcript`
(`db_operations.py`, line 44; the `TranscriptManager` implementation is not
in the code samples) — `getTranscript(id)` returns the stored transcript or
a not-found `None`. -/
def get_raw_transcript (store : Store) (transcript_id : Nat) : Option RawTranscript :=
  store.transcripts.find? (fun t => t.id == some transcript_id)

/-- Modelled from the spec: `DatabaseManager.update_raw_transcript_status`
(`db_operations.py`, line 52; manager implementation not in the code
samples) — `updateTranscriptStatus(id, status)` sets the matching
transcript's `processing_status`.  Also appends the status to the
instrumentation log. -/
def update_raw_transcript_status (store : Store) (transcript_id : Nat) (status : String) : Store :=
  { transcripts := store.transcripts.map (fun t =>
      if t.id == some transcript_id then { t with processing_status := status } else t)
    entries := store.entries
    statusLog := store.statusLog ++ [status] }

/-- Modelled from the spec: `DatabaseManager.get_processed_entry`
(`db_operations.py`, line 69; manager implementation not in the code
samples) — `getProcessedEntry(id)` returns the stored entry or `None`. -/
def get_processed_entry (store : Store) (entry_id : Nat) : Option ProcessedEntry :=
  store.entries.find? (fun e => e.id == some entry_id)

/-- Modelled from the spec: `DatabaseManager.batch_insert_processed_entries`
(`db_operations.py`, line 65; manager implementation not in the code
samples) — inserts all entries of a batch in a single transaction. -/
def batch_insert_processed_entries (store : Store) (new_entries : List ProcessedEntry) : Store :=
  { store with entries := store.entries ++ new_entries }

/-- Python exceptions that the embedded code can raise dynamically. -/
inductive PyErr where
  | attributeError (attr : String)
  | indexError
deriving DecidableEq

/-- Rendering of a raised exception as the `str(e)` used in the workflow's
failure messages. -/
def PyErr.message : PyErr → String
  | .attributeError a => "object has no attribute " ++ a
  | .indexError => "list index out of range"

/-- The dynamic attribute access `entry.text` performed by
`map_corrections_to_entries` when `process_entries_with_openai` passes it
`ProcessedEntry` objects (`correction_service.py`, lines 121-123):
`ProcessedEntry` (`database/models.py`, lines 60-88) defines no `text`
attribute, so the access raises `AttributeError`. -/
def processed_entry_text (_e : ProcessedEntry) : Except PyErr String :=
  .error (.attributeError "text")

/-- The merge-record dictionary produced when `map_corrections_to_entries`
is applied to `ProcessedEntry` objects. -/
structure MappedOnProcessed where
  entry : ProcessedEntry
  corrected_text : String
  corrections : List CorrectionRec
  needs_review : Bool
deriving DecidableEq

/-- `map_corrections_to_entries` as actually invoked by
`process_entries_with_openai` (`correction_service.py`, line 121): the
`original_entries` argument is the list of `ProcessedEntry` objects, so both
branches of the loop body evaluate `entry.text` (in the `i <
len(corrections)` branch as the eagerly-evaluated `dict.get` default, in the
other branch directly), which raises `AttributeError` at the first entry. -/
def map_corrections_on_processed (corrections : List Correction) :
    Nat → List ProcessedEntry → Except PyErr (List MappedOnProcessed)
  | _, [] => .ok []
  | i, e :: rest =>
    match processed_entry_text e with
    | .error err => .error err
    | .ok t =>
      let record :=
        match corrections[i]? with
        | some correction =>
            { entry := e
              corrected_text := correction.corrected_text.getD t
              corrections := correction.corrections_made.getD []
              needs_review := correction.needs_review.getD false : MappedOnProcessed }
        | none =>
            { entry := e, corrected_text := t, corrections := [], needs_review := false }
      match map_corrections_on_processed corrections (i + 1) rest with
      | .error err => .error err
      | .ok tail => .ok (record :: tail)

/-- The dynamic attribute access `entry.api_cost` in the generator
`sum(entry.api_cost for entry in updated_entries)`
(`correction_service.py`, line 129): `updated_entries` holds the merge-record
dictionaries returned by `map_corrections_to_entries`, and a `dict` has no
`api_cost` attribute, so the access raises `AttributeError`. -/
def mapped_api_cost (_m : MappedOnProcessed) : Except PyErr Rat :=
  .error (.attributeError "api_cost")

/-- The cost summation on `correction_service.py`, line 129, evaluated left
to right over the merge records. -/
def sum_api_cost : List MappedOnProcessed → Except PyErr Rat
  | [] => .ok 0
  | m :: rest =>
    match mapped_api_cost m with
    | .error err => .error err
    | .ok c =>
      match sum_api_cost rest with
      | .error err => .error err
      | .ok s => .ok (c + s)

/-- Modelled from the spec:
`DatabaseManager.update_processed_entries_after_openai` (`db_operations.py`,
line 81; `ProcessedEntryManager` is not in the code samples).  Per the spec's
data model the remote pass updates `corrected_text`, the correction list and
`needs_review`, sets `openai_processed` and clears `needs_openai` on each
persisted entry, matched by identity. -/
def update_processed_entries_after_openai (store : Store)
    (updated : List MappedOnProcessed) : Store :=
  { store with entries := store.entries.map (fun e =>
      match updated.find? (fun m => m.entry.id == e.id) with
      | some m =>
          { e with corrected_text := m.corrected_text
                   corrections_made := m.corrections
                   needs_review := m.needs_review
                   openai_processed := true
                   needs_openai := false }
      | none => e) }

/-- Modelled from the spec: the greedy accumulation loop of
`SRTParser.create_batches` (`services/srt_parser.py` is not in the code
samples; spec, section 4.1): entries are appended to the current batch until
either the entry count would exceed the target size or the token estimate
would exceed the budget, at which point the current batch is closed and a
new one started; an oversized single entry still forms its own batch.  `cur`
holds the current batch in reverse, `curTok` its token estimate. -/
def create_batches_go (est : SRTEntry → Nat) (target_batch_size max_tokens : Nat) :
    List SRTEntry → List SRTEntry → Nat → List (List SRTEntry)
  | [], cur, _ => if cur.isEmpty then [] else [cur.reverse]
  | e :: rest, cur, curTok =>
    if cur.isEmpty then
      create_batches_go est target_batch_size max_tokens rest [e] (est e)
    else if target_batch_size < cur.length + 1 ∨ max_tokens < curTok + est e then
      cur.reverse :: create_batches_go est target_batch_size max_tokens rest [e] (est e)
    else
      create_batches_go est target_batch_size max_tokens rest (e :: cur) (curTok + est e)

/-- Modelled from the spec: `SRTParser.create_batches`
(`services/srt_parser.py` is not in the code samples; spec, section 4.1).
The token estimate is a parameter (a monotone cheap proxy such as character
count divided by a constant). -/
def create_batches (est : SRTEntry → Nat) (target_batch_size max_tokens : Nat)
    (entries : List SRTEntry) : List (List SRTEntry) :=
  create_batches_go est target_batch_size max_tokens entries [] 0

/-- The pseudo-`SRTEntry` construction of `process_entries_with_openai`
(`correction_service.py`, lines 94-102): entry `i` (0-based) of the filtered
list becomes an `SRTEntry` with index `i+1` and the entry's current original
text and timestamps. -/
def to_srt_entries : Nat → List ProcessedEntry → List SRTEntry
  | _, [] => []
  | i, e :: rest =>
    { index := i + 1
      start_time := e.timestamp_start
      end_time := e.timestamp_end
      text := e.original_text } :: to_srt_entries (i + 1) rest

/-- The filtering loop of `process_entries_with_openai`
(`correction_service.py`, lines 83-87): keep, in request order, each
requested entry that exists and is not already `openai_processed`. -/
def collect_entries_to_process (store : Store) (entry_ids : List Nat) : List ProcessedEntry :=
  entry_ids.filterMap (fun entry_id =>
    match get_processed_entry store entry_id with
    | some e => if e.openai_processed then none else some e
    | none => none)

/-- The body of the per-batch `try` block of `process_entries_with_openai`
(`correction_service.py`, lines 116-135), with the surrounding
`except ... continue`: the remote call, the mapping of its corrections onto
`entries_to_process` (note: the whole filtered list, not the batch), the
database update, and the cost summation, in program order; the first raised
exception is caught and the batch contributes nothing further.  Returns the
store after the block (including any write that happened before a raise) and
the batch's contribution to `total_processed` and `total_cost`. -/
def remote_batch_step (oracle : Nat → AttemptOutcome) (entries_to_process : List ProcessedEntry)
    (batch : List SRTEntry) (store : Store) : Store × Nat × Rat :=
  match (correct_transcript_batch batch oracle 3).1 with
  | .error _ => (store, 0, 0)
  | .ok corrections =>
    match map_corrections_on_processed corrections 0 entries_to_process with
    | .error _ => (store, 0, 0)
    | .ok updated_entries =>
      let store' := update_processed_entries_after_openai store updated_entries
      match sum_api_cost updated_entries with
      | .error _ => (store', 0, 0)
      | .ok batch_cost => (store', updated_entries.length, batch_cost)

/-- The `for batch_index, batch in enumerate(batches)` loop of
`process_entries_with_openai` (`correction_service.py`, lines 115-135),
accumulating `total_processed` and `total_cost`.  `batchOracle b` is the
attempt oracle of the remote call for the batch at index `b`. -/
def remote_batches_loop (batchOracle : Nat → Nat → AttemptOutcome)
    (entries_to_process : List ProcessedEntry) :
    Nat → List (List SRTEntry) → Store → Store × Nat × Rat
  | _, [], store => (store, 0, 0)
  | b, batch :: rest, store =>
    match remote_batch_step (batchOracle b) entries_to_process batch store with
    | (store', dp, dc) =>
      match remote_batches_loop batchOracle entries_to_process (b + 1) rest store' with
      | (store'', tp, tc) => (store'', dp + tp, dc + tc)

/-- Fixed-point rendering of the cost for the result message
(`f"${total_cost:.4f}"`), computed on the rational's numerator and
denominator.  The rendering is not load-bearing for any claim. -/
def formatCost (c : Rat) : String :=
  let m : Int := c.num * 10000 / (c.den : Int)
  let r : Nat := (m % 10000).toNat
  let rs : String := Nat.repr r
  toString (m / 10000) ++ "." ++ String.mk (List.replicate (4 - rs.length) '0') ++ rs

/-- Result of `process_entries_with_openai`: the Python function returns the
pair `(success, message)`; the remaining fields expose the observables of
the execution — the accumulated count and cost, the batches sent to the
remote client, and the final store. -/
structure RemoteRunOutput where
  success : Bool
  message : String
  totalProcessed : Nat
  totalCost : Rat
  remoteBatches : List (List SRTEntry)
  store : Store

/-- `CorrectionService.process_entries_with_openai`
(`correction_service.py`, lines 67-144).  `batchOracle` abstracts the remote
responses per batch and attempt; `est`, `target_batch_size` and
`max_batch_tokens` stand for the token estimator and the `BATCH_SIZE` /
`MAX_BATCH_TOKENS` configuration consumed from `config.py` (not in the code
samples).  With the store operations total, the outer `except` (lines
142-144) is unreachable: per-batch exceptions are caught inside the loop. -/
def process_entries_with_openai (batchOracle : Nat → Nat → AttemptOutcome)
    (est : SRTEntry → Nat) (target_batch_size max_batch_tokens : Nat)
    (store : Store) (file_id : Nat) (entry_ids : List Nat) : RemoteRunOutput :=
  let store1 := update_raw_transcript_status store file_id "openai_processing"
  let entries_to_process := collect_entries_to_process store1 entry_ids
  if entries_to_process.isEmpty then
    { success := false
      message := "No entries found that need OpenAI processing"
      totalProcessed := 0
      totalCost := 0
      remoteBatches := []
      store := update_raw_transcript_status store1 file_id "processed" }
  else
    let srt_entries := to_srt_entries 0 entries_to_process
    let batches := create_batches est target_batch_size max_batch_tokens srt_entries
    let r := remote_batches_loop batchOracle entries_to_process 0 batches store1
    { success := true
      message := "Successfully processed " ++ Nat.repr r.2.1 ++
        " entries with OpenAI. Total cost: $" ++ formatCost r.2.2
      totalProcessed := r.2.1
      totalCost := r.2.2
      remoteBatches := batches
      store := update_raw_transcript_status r.1 file_id "completed" }

/-- The `for i, result in enumerate(processed_results)` construction loop of
`_process_all_batches_locally` (`correction_service.py`, lines 180-192):
each local result is turned into a `ProcessedEntry` via the `batch[i]`
lookup (an `IndexError` if the local corrector returned more results than
the batch has entries).  The constructor call passes neither `api_cost` nor
`openai_processed`, so those take the constructor defaults `0.0` and
`False`. -/
def build_processed_entries (file_id : Nat) (batch : List SRTEntry) :
    Nat → List LocalResult → Except PyErr (List ProcessedEntry)
  | _, [] => .ok []
  | i, result :: rest =>
    match batch[i]? with
    | none => .error .indexError
    | some b =>
      match build_processed_entries file_id batch (i + 1) rest with
      | .error err => .error err
      | .ok tail =>
        .ok ({ id := none
               raw_transcript_id := some file_id
               timestamp_start := b.start_time
               timestamp_end := b.end_time
               original_text := b.text
               corrected_text := result.corrected_text
               corrections_made := result.corrections
               confidence_score := result.confidence.getD 0
               needs_review := result.needs_review.getD false
               api_cost := 0
               needs_openai := result.needs_openai.getD false
               openai_processed := false } :: tail)

/-- `sum(1 for e in processed_entries if e.needs_openai)`
(`correction_service.py`, line 198). -/
def count_needing_openai (entries : List ProcessedEntry) : Nat :=
  entries.countP (fun e => e.needs_openai)

/-- `CorrectionService._process_all_batches_locally`
(`correction_service.py`, lines 169-200), with the local corrector as the
parameter `localProc` (a black box per the spec, section 4.2).  Returns the
store after all inserts performed before any raise, and either the totals
`(total_entries, entries_needing_openai)` or the first raised exception. -/
def process_all_batches_locally (localProc : List SRTEntry → List LocalResult)
    (file_id : Nat) : List (List SRTEntry) → Store → Store × Except PyErr (Nat × Nat)
  | [], store => (store, .ok (0, 0))
  | batch :: rest, store =>
    match build_processed_entries file_id batch 0 (localProc batch) with
    | .error err => (store, .error err)
    | .ok processed_entries =>
      let store' := batch_insert_processed_entries store processed_entries
      match process_all_batches_locally localProc file_id rest store' with
      | (store'', .ok (total, needing)) =>
        (store'', .ok (processed_entries.length + total,
          count_needing_openai processed_entries + needing))
      | (store'', .error err) => (store'', .error err)

/-- Result of `process_srt_file`: the Python function returns the pair
`(success, message)`; the remaining fields expose the totals of the local
pass and the final store. -/
structure LocalRunOutput where
  success : Bool
  message : String
  totalEntries : Nat
  entriesNeedingOpenai : Nat
  store : Store

/-- `CorrectionService.process_srt_file` (`correction_service.py`, lines
32-65).  `parse` stands for `SRTParser.parse_srt_file` (not in the code
samples); `localProc` for the local corrector; `est`, `target_batch_size`
and `max_batch_tokens` as in the remote pass.  Paths: transcript not found
(early return, no status write); empty batch list (early return while the
status stays `processing`); success (`processed`); an exception during the
batch processing (`error`, via the `except` on lines 63-65). -/
def process_srt_file (parse : String → List SRTEntry)
    (localProc : List SRTEntry → List LocalResult) (est : SRTEntry → Nat)
    (target_batch_size max_batch_tokens : Nat) (store : Store) (file_id : Nat) :
    LocalRunOutput :=
  match get_raw_transcript store file_id with
  | none =>
    { success := false
      message := "Raw transcript with ID " ++ Nat.repr file_id ++ " not found"
      totalEntries := 0
      entriesNeedingOpenai := 0
      store := store }
  | some transcript =>
    let store1 := update_raw_transcript_status store file_id "processing"
    let entries := parse transcript.file_content
    let batches := create_batches est target_batch_size max_batch_tokens entries
    if batches.isEmpty then
      { success := false
        message := "No valid SRT entries found in the file"
        totalEntries := 0
        entriesNeedingOpenai := 0
        store := store1 }
    else
      match process_all_batches_locally localProc file_id batches store1 with
      | (store2, .ok (total_entries, entries_needing_openai)) =>
        { success := true
          message := "Successfully processed " ++ Nat.repr total_entries ++
            " entries locally. " ++ Nat.repr entries_needing_openai ++
            " entries marked for OpenAI processing."
          totalEntries := total_entries
          entriesNeedingOpenai := entries_needing_openai
          store := update_raw_transcript_status store2 file_id "processed" }
      | (store2, .error err) =>
        { success := false
          message := "Error processing SRT file: " ++ err.message
          totalEntries := 0
          entriesNeedingOpenai := 0
          store := update_raw_transcript_status store2 file_id "error" }

/-- A concrete token estimator for concrete runs: character count divided
by four. -/
def est1 (e : SRTEntry) : Nat := e.text.length / 4

/-- A concrete remote correction, as a well-formed response element. -/
def corrW : Correction :=
  { timestamp := some "00:00:01,000 --> 00:00:02,000"
    original_text := some "christian says"
    corrected_text := some "Krishna says"
    corrections_made := some [{ original := "christian", corrected := "Krishna", confidence := (95 : Rat) / 100 }]
    needs_review := some false }

/-- A batch oracle whose remote call succeeds at the first attempt of every
batch, answering with the single correction `corrW`. -/
def oracleOk (_b _attempt : Nat) : AttemptOutcome := .ok [corrW]

/-- A batch oracle whose remote call fails (transport error) at every
attempt of every batch. -/
def oracleApiFail (_b _attempt : Nat) : AttemptOutcome := .apiError

/-- An attempt oracle that always yields a malformed (non-JSON) response. -/
def oracleJson (_attempt : Nat) : AttemptOutcome := .jsonError

/-- An attempt oracle that fails with a transport error on attempts 1 and 2
and succeeds on attempt 3. -/
def oracleThird (attempt : Nat) : AttemptOutcome :=
  if attempt < 2 then .apiError else .ok [corrW]

/-- A concrete processed entry still awaiting the remote pass. -/
def entryPending : ProcessedEntry :=
  { id := some 1
    raw_transcript_id := some 1
    timestamp_start := "00:00:01,000"
    timestamp_end := "00:00:02,000"
    original_text := "hello"
    corrected_text := "hello"
    corrections_made := []
    confidence_score := 0
    needs_review := false
    api_cost := 0
    needs_openai := true
    openai_processed := false }

/-- The same entry after a successful remote pass would have marked it. -/
def entryDone : ProcessedEntry :=
  { entryPending with openai_processed := true, needs_openai := false }

/-- A concrete transcript in status `processed` (local pass finished). -/
def trProcessed : RawTranscript :=
  { id := some 1, filename := "lecture.srt", file_content := "1\n00:00:01,000 --> 00:00:02,000\nhello\n",
    processing_status := "processed" }

/-- The same transcript still in status `pending`. -/
def trPending : RawTranscript :=
  { trProcessed with processing_status := "pending" }

/-- Store for remote-pass runs: one transcript, one entry awaiting the
remote pass. -/
def storeA : Store :=
  { transcripts := [trProcessed], entries := [entryPending], statusLog := [] }

/-- Store in which the only requested entry is already `openai_processed`. -/
def storeB : Store :=
  { transcripts := [trProcessed], entries := [entryDone], statusLog := [] }

/-- Store whose transcript is still `pending` while an entry awaits the
remote pass. -/
def storePending : Store :=
  { transcripts := [trPending], entries := [entryPending], statusLog := [] }

/-- Store for local-pass runs: a transcript whose raw content will parse to
nothing. -/
def storeT : Store :=
  { transcripts := [{ id := some 1, filename := "empty.srt", file_content := "garbage",
                      processing_status := "pending" }]
    entries := []
    statusLog := [] }

/-- A parser returning no valid entries. -/
def parseNil (_raw : String) : List SRTEntry := []

/-- A local corrector returning no results. -/
def localProcNil (_batch : List SRTEntry) : List LocalResult := []

/-- First remote-pass call on `storeA` with an always-succeeding remote
oracle (the failing input of the mapping bug). -/
def remoteOutA : RemoteRunOutput :=
  process_entries_with_openai oracleOk est1 100 10000 storeA 1 [1]

/-- Second remote-pass call with the same entry ids, on the store left by
the first call. -/
def remoteOutA2 : RemoteRunOutput :=
  process_entries_with_openai oracleOk est1 100 10000 remoteOutA.store 1 [1]

/-- Concrete entries for the positional-mapping witness. -/
def srtE1 : SRTEntry :=
  { index := 1, start_time := "00:00:01,000", end_time := "00:00:02,000", text := "christian says" }

/-- Second concrete entry for the positional-mapping witness. -/
def srtE2 : SRTEntry :=
  { index := 2, start_time := "00:00:03,000", end_time := "00:00:04,000", text := "world" }

/-- A concrete local-corrector result for the local-pass witness. -/
def localResW : LocalResult :=
  { corrected_text := "hello corrected"
    corrections := [{ original := "helo", corrected := "hello", confidence := (9 : Rat) / 10 }]
    confidence := some ((9 : Rat) / 10)
    needs_review := some false
    needs_openai := some true }

/-- The `ProcessedEntry` that `build_processed_entries` constructs from
`srtE1` and `localResW`. -/
def peW : ProcessedEntry :=
  { id := none
    raw_transcript_id := some 7
    timestamp_start := "00:00:01,000"
    timestamp_end := "00:00:02,000"
    original_text := "christian says"
    corrected_text := "hello corrected"
    corrections_made := [{ original := "helo", corrected := "hello", confidence := (9 : Rat) / 10 }]
    confidence_score := (9 : Rat) / 10
    needs_review := false
    api_cost := 0
    needs_openai := true
    openai_processed := false }

/-! Theorems.  General lemmas first, then one theorem per claim (with its
witness or counterexample where applicable). -/

theorem map_corrections_aux_length (C : List Correction) :
    ∀ (E : List SRTEntry) (i : Nat), (map_corrections_aux C i E).length = E.length := by
  intro E
  induction E with
  | nil => intro i; rfl
  | cons e rest ih => intro i; simp [map_corrections_aux, ih (i + 1)]

theorem map_corrections_aux_getElem? (C : List Correction) :
    ∀ (E : List SRTEntry) (i j : Nat),
    (map_corrections_aux C i E)[j]? = (E[j]?).map (map_correction_body C (i + j)) := by
  intro E
  induction E with
  | nil => intro i j; simp [map_corrections_aux]
  | cons e rest ih =>
    intro i j
    cases j with
    | zero => simp [map_corrections_aux]
    | succ j =>
      have hidx : i + 1 + j = i + (j + 1) := by omega
      calc (map_corrections_aux C i (e :: rest))[j + 1]?
          = (map_corrections_aux C (i + 1) rest)[j]? := by
            simp [map_corrections_aux]
        _ = (rest[j]?).map (map_correction_body C (i + 1 + j)) := ih (i + 1) j
        _ = ((e :: rest)[j + 1]?).map (map_correction_body C (i + (j + 1))) := by
            rw [hidx]; simp

theorem map_corrections_aux_congr (C C' : List Correction) :
    ∀ (E : List SRTEntry) (i : Nat),
    (∀ j, j < E.length → C[i + j]? = C'[i + j]?) →
    map_corrections_aux C i E = map_corrections_aux C' i E := by
  intro E
  induction E with
  | nil => intro i _; rfl
  | cons e rest ih =>
    intro i h
    have h0 : C[i]? = C'[i]? := by simpa using h 0 (by simp)
    have hbody : map_correction_body C i e = map_correction_body C' i e := by
      unfold map_correction_body
      rw [h0]
    have htail : map_corrections_aux C (i + 1) rest = map_corrections_aux C' (i + 1) rest := by
      refine ih (i + 1) (fun j hj => ?_)
      have hidx : i + 1 + j = i + (j + 1) := by omega
      rw [hidx]
      exact h (j + 1) (by simpa using Nat.succ_lt_succ hj)
    simp [map_corrections_aux, hbody, htail]

/-- Claim C1: `map_corrections_to_entries` returns exactly one merge record
per entry of `E`, in input order; record `i` carries `C[i]`'s
`corrected_text` (read with a `dict.get` default) when `i < len(C)`, and
otherwise `E[i].text` with an empty correction list and
`needs_review = false`; elements of `C` beyond `len(E)` are ignored; the
function is a pure total Lean function, so it never fails. -/
theorem map_corrections_positional_correct (E : List SRTEntry) (C : List Correction) :
    (map_corrections_to_entries E C).length = E.length ∧
    (∀ (i : Nat) (e : SRTEntry) (c : Correction), E[i]? = some e → C[i]? = some c →
      (map_corrections_to_entries E C)[i]? = some
        ({ entry := e
           corrected_text := c.corrected_text.getD e.text
           corrections := c.corrections_made.getD []
           needs_review := c.needs_review.getD false } : MappedCorrection)) ∧
    (∀ (i : Nat) (e : SRTEntry), E[i]? = some e → C.length ≤ i →
      (map_corrections_to_entries E C)[i]? = some
        ({ entry := e, corrected_text := e.text, corrections := [], needs_review := false } :
          MappedCorrection)) ∧
    map_corrections_to_entries E C = map_corrections_to_entries E (C.take E.length) := by
  refine ⟨map_corrections_aux_length C E 0, ?_, ?_, ?_⟩
  · intro i e c he hc
    have h := map_corrections_aux_getElem? C E 0 i
    rw [map_corrections_to_entries, h, he]
    simp [map_correction_body, hc]
  · intro i e he hlen
    have hc : C[i]? = none := List.getElem?_eq_none hlen
    have h := map_corrections_aux_getElem? C E 0 i
    rw [map_corrections_to_entries, h, he]
    simp [map_correction_body, hc]
  · refine map_corrections_aux_congr C (C.take E.length) E 0 (fun j hj => ?_)
    rw [Nat.zero_add, List.getElem?_take]
    simp [hj]

/-- Witness for claim C1, at two concrete entries and one concrete
correction. -/
theorem map_corrections_positional_witness :
    (map_corrections_to_entries [srtE1, srtE2] [corrW])[0]? = some
      ({ entry := srtE1
         corrected_text := "Krishna says"
         corrections := [{ original := "christian", corrected := "Krishna", confidence := (95 : Rat) / 100 }]
         needs_review := false } : MappedCorrection) ∧
    (map_corrections_to_entries [srtE1, srtE2] [corrW])[1]? = some
      ({ entry := srtE2, corrected_text := "world", corrections := [], needs_review := false } :
        MappedCorrection) := by
  constructor
  · have h := (map_corrections_positional_correct [srtE1, srtE2] [corrW]).2.1 0 srtE1 corrW rfl rfl
    simpa [corrW, srtE1] using h
  · have h := (map_corrections_positional_correct [srtE1, srtE2] [corrW]).2.2.1 1 srtE2 rfl (by decide)
    simpa [srtE2] using h

theorem correct_batch_loop_fail_step (oracle : Nat → AttemptOutcome) (rc attempt fuel : Nat)
    (hguard : attempt < rc - 1) (hfail : (oracle attempt).isOk = false) :
    correct_batch_loop oracle rc attempt (fuel + 1) =
      ((correct_batch_loop oracle rc (attempt + 1) fuel).1,
        2 ^ attempt :: (correct_batch_loop oracle rc (attempt + 1) fuel).2) := by
  cases ho : oracle attempt with
  | ok c =>
    rw [ho] at hfail
    exact absurd hfail (by simp [AttemptOutcome.isOk])
  | jsonError => simp [correct_batch_loop, ho, hguard]
  | apiError => simp [correct_batch_loop, ho, hguard]

theorem correct_batch_loop_all_fail (oracle : Nat → AttemptOutcome) (rc : Nat) :
    ∀ (fuel attempt : Nat), attempt + fuel = rc → 1 ≤ fuel →
    (∀ i, i < rc → (oracle i).isOk = false) →
    (correct_batch_loop oracle rc attempt fuel).1 =
      .error (failure_kind (oracle (rc - 1))) := by
  intro fuel
  induction fuel with
  | zero => intro attempt _ h1 _; omega
  | succ fuel ih =>
    intro attempt hsum _ hfail
    cases fuel with
    | zero =>
      have hguard : ¬ (attempt < rc - 1) := by omega
      have hlast : rc - 1 = attempt := by omega
      cases ho : oracle attempt with
      | ok c =>
        have hbad := hfail attempt (by omega)
        rw [ho] at hbad
        exact absurd hbad (by simp [AttemptOutcome.isOk])
      | jsonError =>
        rw [hlast, ho]
        simp [correct_batch_loop, ho, hguard, failure_kind]
      | apiError =>
        rw [hlast, ho]
        simp [correct_batch_loop, ho, hguard, failure_kind]
    | succ fuel' =>
      have hguard : attempt < rc - 1 := by omega
      have hrec := ih (attempt + 1) (by omega) (by omega) hfail
      have hstep := correct_batch_loop_fail_step oracle rc attempt (fuel' + 1) hguard
        (hfail attempt (by omega))
      rw [hstep]
      exact hrec

/-- Claim C7: when all `retry_count` attempts of `correct_transcript_batch`
fail, the function raises an error rather than returning a result, and the
error kind is determined by the final attempt's failure class:
`parseFailure` (the `ValueError` of the `json.JSONDecodeError` branch) when
the last attempt's response was malformed, `apiFailure` (the generic
`Exception`) otherwise. -/
theorem retries_exhausted_error_kinds (entries : List SRTEntry) (oracle : Nat → AttemptOutcome)
    (retry_count : Nat) (hrc : 1 ≤ retry_count)
    (hfail : ∀ i, i < retry_count → (oracle i).isOk = false) :
    (correct_transcript_batch entries oracle retry_count).1 =
      .error (failure_kind (oracle (retry_count - 1))) ∧
    ∀ corrections, (correct_transcript_batch entries oracle retry_count).1 ≠ .ok corrections := by
  have h : (correct_transcript_batch entries oracle retry_count).1 =
      .error (failure_kind (oracle (retry_count - 1))) :=
    correct_batch_loop_all_fail oracle retry_count retry_count 0 (by omega) hrc hfail
  refine ⟨h, fun corrections hc => ?_⟩
  rw [h] at hc
  exact absurd hc (by simp)

/-- Witness for claim C7: with three malformed responses, the distinct
parse-failure error is raised. -/
theorem retries_exhausted_witness :
    (correct_transcript_batch [srtE1] oracleJson 3).1 = .error CBError.parseFailure :=
  (retries_exhausted_error_kinds [srtE1] oracleJson 3 (by omega) (fun _ _ => rfl)).1

/-- Claim C8: if the remote call fails on attempts 1 and 2 and succeeds on
attempt 3 (with `retry_count = 3`), `correct_transcript_batch` returns the
third attempt's parsed result, and exactly two backoff sleeps occur before
success, of 1 second (2^0) and 2 seconds (2^1), in that order. -/
theorem third_attempt_success_backoff (entries : List SRTEntry) (oracle : Nat → AttemptOutcome)
    (c : List Correction) (h0 : (oracle 0).isOk = false) (h1 : (oracle 1).isOk = false)
    (h2 : oracle 2 = .ok c) :
    correct_transcript_batch entries oracle 3 = (.ok c, [1, 2]) := by
  have e0 : correct_transcript_batch entries oracle 3 = correct_batch_loop oracle 3 0 3 := rfl
  rw [e0]
  cases ho0 : oracle 0 with
  | ok cc =>
    rw [ho0] at h0
    exact absurd h0 (by simp [AttemptOutcome.isOk])
  | jsonError =>
    cases ho1 : oracle 1 with
    | ok cc =>
      rw [ho1] at h1
      exact absurd h1 (by simp [AttemptOutcome.isOk])
    | jsonError => simp [correct_batch_loop, ho0, ho1, h2]
    | apiError => simp [correct_batch_loop, ho0, ho1, h2]
  | apiError =>
    cases ho1 : oracle 1 with
    | ok cc =>
      rw [ho1] at h1
      exact absurd h1 (by simp [AttemptOutcome.isOk])
    | jsonError => simp [correct_batch_loop, ho0, ho1, h2]
    | apiError => simp [correct_batch_loop, ho0, ho1, h2]

/-- Witness for claim C8, with a concrete oracle that fails twice and then
answers `[corrW]`. -/
theorem third_attempt_success_witness :
    correct_transcript_batch [srtE1] oracleThird 3 = (.ok [corrW], [1, 2]) :=
  third_attempt_success_backoff [srtE1] oracleThird [corrW] rfl rfl rfl

theorem map_on_processed_cons (corrections : List Correction) (i : Nat) (e0 : ProcessedEntry)
    (rest : List ProcessedEntry) :
    map_corrections_on_processed corrections i (e0 :: rest) =
      .error (.attributeError "text") := rfl

theorem remote_batch_step_remote_error (oracle : Nat → AttemptOutcome)
    (ets : List ProcessedEntry) (batch : List SRTEntry) (store : Store) (err : CBError)
    (h : (correct_transcript_batch batch oracle 3).1 = .error err) :
    remote_batch_step oracle ets batch store = (store, 0, 0) := by
  simp [remote_batch_step, h]

theorem remote_batch_step_on_cons (oracle : Nat → AttemptOutcome) (e0 : ProcessedEntry)
    (rest : List ProcessedEntry) (batch : List SRTEntry) (store : Store) :
    remote_batch_step oracle (e0 :: rest) batch store = (store, 0, 0) := by
  cases h : (correct_transcript_batch batch oracle 3).1 with
  | error err => simp [remote_batch_step, h]
  | ok corrections => simp [remote_batch_step, h, map_on_processed_cons]

theorem remote_batches_loop_on_cons (batchOracle : Nat → Nat → AttemptOutcome)
    (e0 : ProcessedEntry) (rest : List ProcessedEntry) :
    ∀ (bs : List (List SRTEntry)) (b : Nat) (store : Store),
    remote_batches_loop batchOracle (e0 :: rest) b bs store = (store, 0, 0) := by
  intro bs
  induction bs with
  | nil => intro b store; rfl
  | cons batch bs ih =>
    intro b store
    simp [remote_batches_loop, remote_batch_step_on_cons, ih]

theorem collect_update_status (store : Store) (tid : Nat) (st : String) (ids : List Nat) :
    collect_entries_to_process (update_raw_transcript_status store tid st) ids =
      collect_entries_to_process store ids := rfl

theorem find?_status_update (tid : Nat) (st : String) :
    ∀ (l : List RawTranscript),
    (l.map (fun t => if t.id == some tid then { t with processing_status := st } else t)).find?
        (fun t => t.id == some tid) =
      (l.find? (fun t => t.id == some tid)).map (fun t => { t with processing_status := st }) := by
  intro l
  induction l with
  | nil => rfl
  | cons t rest ih =>
    by_cases ht : t.id = some tid
    · have hb : (t.id == some tid) = true := by simpa using ht
      have hite : (if t.id == some tid then ({ t with processing_status := st } : RawTranscript) else t) =
          { t with processing_status := st } := by simp [hb]
      have hb2 : (({ t with processing_status := st } : RawTranscript).id == some tid) = true := hb
      rw [List.map_cons, hite]
      simp only [List.find?, hb, hb2]
      rfl
    · have hb : (t.id == some tid) = false := by simp [ht]
      have hite : (if t.id == some tid then ({ t with processing_status := st } : RawTranscript) else t) =
          t := by simp [hb]
      rw [List.map_cons, hite]
      simp only [List.find?, hb]
      exact ih

theorem get_raw_transcript_update (store : Store) (tid : Nat) (st : String) :
    get_raw_transcript (update_raw_transcript_status store tid st) tid =
      (get_raw_transcript store tid).map (fun t => { t with processing_status := st }) :=
  find?_status_update tid st store.transcripts

theorem remote_pass_empty_eq (batchOracle : Nat → Nat → AttemptOutcome) (est : SRTEntry → Nat)
    (tbs mbt : Nat) (store : Store) (file_id : Nat) (entry_ids : List Nat)
    (h : collect_entries_to_process store entry_ids = []) :
    process_entries_with_openai batchOracle est tbs mbt store file_id entry_ids =
      { success := false
        message := "No entries found that need OpenAI processing"
        totalProcessed := 0
        totalCost := 0
        remoteBatches := []
        store := update_raw_transcript_status
          (update_raw_transcript_status store file_id "openai_processing") file_id
          "processed" } := by
  have h1 : collect_entries_to_process
      (update_raw_transcript_status store file_id "openai_processing") entry_ids = [] := by
    rw [collect_update_status]
    exact h
  simp [process_entries_with_openai, h1]

theorem remote_pass_nonempty_eq (batchOracle : Nat → Nat → AttemptOutcome) (est : SRTEntry → Nat)
    (tbs mbt : Nat) (store : Store) (file_id : Nat) (entry_ids : List Nat) (e0 : ProcessedEntry)
    (rest : List ProcessedEntry)
    (h : collect_entries_to_process store entry_ids = e0 :: rest) :
    process_entries_with_openai batchOracle est tbs mbt store file_id entry_ids =
      { success := true
        message := "Successfully processed " ++ Nat.repr 0 ++
          " entries with OpenAI. Total cost: $" ++ formatCost 0
        totalProcessed := 0
        totalCost := 0
        remoteBatches := create_batches est tbs mbt (to_srt_entries 0 (e0 :: rest))
        store := update_raw_transcript_status
          (update_raw_transcript_status store file_id "openai_processing") file_id
          "completed" } := by
  have h1 : collect_entries_to_process
      (update_raw_transcript_status store file_id "openai_processing") entry_ids = e0 :: rest := by
    rw [collect_update_status]
    exact h
  simp [process_entries_with_openai, h1, remote_batches_loop_on_cons]

/-- Claim C3 (amended): when the filtered set is empty,
`process_entries_with_openai` transitions the transcript back to
`processed` and returns zero processed with the descriptive message — but
with the success flag `false` (the same channel used for failures), not as a
success result. -/
theorem empty_filter_back_to_processed (batchOracle : Nat → Nat → AttemptOutcome)
    (est : SRTEntry → Nat) (tbs mbt : Nat) (store : Store) (file_id : Nat)
    (entry_ids : List Nat)
    (h : collect_entries_to_process store entry_ids = []) :
    (process_entries_with_openai batchOracle est tbs mbt store file_id entry_ids).success = false ∧
    (process_entries_with_openai batchOracle est tbs mbt store file_id entry_ids).message =
      "No entries found that need OpenAI processing" ∧
    (process_entries_with_openai batchOracle est tbs mbt store file_id entry_ids).totalProcessed = 0 ∧
    (process_entries_with_openai batchOracle est tbs mbt store file_id entry_ids).remoteBatches = [] ∧
    (process_entries_with_openai batchOracle est tbs mbt store file_id entry_ids).store.statusLog =
      store.statusLog ++ ["openai_processing", "processed"] ∧
    (∀ t, get_raw_transcript
        (process_entries_with_openai batchOracle est tbs mbt store file_id entry_ids).store file_id =
        some t → t.processing_status = "processed") := by
  have hout := remote_pass_empty_eq batchOracle est tbs mbt store file_id entry_ids h
  rw [hout]
  refine ⟨rfl, rfl, rfl, rfl, ?_, ?_⟩
  · simp [update_raw_transcript_status]
  · intro t ht
    rw [get_raw_transcript_update] at ht
    rcases hx : get_raw_transcript
        (update_raw_transcript_status store file_id "openai_processing") file_id with _ | t0
    · rw [hx] at ht
      simp at ht
    · rw [hx] at ht
      simp only [Option.map_some'] at ht
      cases ht
      rfl

/-- Witness for claim C3 on a concrete store whose only requested entry is
already `openai_processed`. -/
theorem empty_filter_back_to_processed_witness :
    (process_entries_with_openai oracleOk est1 100 10000 storeB 1 [1]).success = false ∧
    (process_entries_with_openai oracleOk est1 100 10000 storeB 1 [1]).message =
      "No entries found that need OpenAI processing" ∧
    (process_entries_with_openai oracleOk est1 100 10000 storeB 1 [1]).store.statusLog =
      ["openai_processing", "processed"] := by
  have h := empty_filter_back_to_processed oracleOk est1 100 10000 storeB 1 [1] (by decide)
  exact ⟨h.1, h.2.1, by rw [h.2.2.2.2.1]; rfl⟩

/-- Counterexample for claim C3 as stated: on the empty filtered set the
call does transition back to `processed` and report the descriptive
message, but the returned flag is `false` — the failure channel — not a
success result. -/
theorem empty_filter_not_success_counterexample :
    (process_entries_with_openai oracleOk est1 100 10000 storeB 1 [1]).success = false ∧
    (get_raw_transcript (process_entries_with_openai oracleOk est1 100 10000 storeB 1 [1]).store
      1).map (fun t => t.processing_status) = some "processed" := by decide

/-- Claim C2 (code-bug evaluation): with one filtered entry and a remote
oracle that succeeds at the first attempt of every batch, the remote pass
returns success yet reports zero processed entries, persists nothing (the
entry keeps `openai_processed = false`, `needs_openai = true` and its
original `corrected_text`), even though one batch was sent to the remote
client.  The claim expects the count 1 and the entry persisted once:
`map_corrections_to_entries` is invoked on the whole `ProcessedEntry` list
instead of the batch's `SRTEntry` list, so every batch raises
`AttributeError` and is skipped. -/
theorem remote_pass_mapping_bug_eval :
    remoteOutA.success = true ∧
    remoteOutA.totalProcessed = 0 ∧
    remoteOutA.message = "Successfully processed 0 entries with OpenAI. Total cost: $0.0000" ∧
    (get_processed_entry remoteOutA.store 1).map (fun e => e.openai_processed) = some false ∧
    (get_processed_entry remoteOutA.store 1).map (fun e => e.corrected_text) = some "hello" ∧
    (get_processed_entry remoteOutA.store 1).map (fun e => e.needs_openai) = some true ∧
    remoteOutA.remoteBatches.length = 1 := by
  have heq := remote_pass_nonempty_eq oracleOk est1 100 10000 storeA 1 [1] entryPending []
    (by decide)
  have hmsg : remoteOutA.message =
      "Successfully processed 0 entries with OpenAI. Total cost: $0.0000" := by
    show (process_entries_with_openai oracleOk est1 100 10000 storeA 1 [1]).message = _
    rw [heq]
    decide
  exact ⟨by decide, by decide, hmsg, by decide, by decide, by decide, by decide⟩

/-- Claim C6 (code-bug evaluation): a first remote-pass call that returns
success leaves the requested entry with `openai_processed = false`, so a
second call with the same entry ids passes it through the filter again and
sends it to the remote client once more — the idempotence the claim states
does not hold. -/
theorem remote_pass_not_idempotent_eval :
    remoteOutA.success = true ∧
    (get_processed_entry remoteOutA.store 1).map (fun e => e.openai_processed) = some false ∧
    remoteOutA2.remoteBatches =
      [[{ index := 1, start_time := "00:00:01,000", end_time := "00:00:02,000", text := "hello" }]] ∧
    remoteOutA2.totalProcessed = 0 := by decide

/-- Claim C9: a per-batch exception inside `process_entries_with_openai` is
caught: whether the remote call itself raised (first conjunct) or any later
step of the batch body raised (second conjunct — with a nonempty filtered
list the mapping step always raises), the batch contributes nothing to the
count or the cost and leaves the store — hence every entry's `needs_openai`
flag — unchanged; and the overall call still ends in status `completed`
with a success result (third conjunct). -/
theorem batch_failure_contained :
    (∀ (oracle : Nat → AttemptOutcome) (ets : List ProcessedEntry) (batch : List SRTEntry)
       (store : Store) (err : CBError),
       (correct_transcript_batch batch oracle 3).1 = .error err →
       remote_batch_step oracle ets batch store = (store, 0, 0)) ∧
    (∀ (oracle : Nat → AttemptOutcome) (e0 : ProcessedEntry) (rest : List ProcessedEntry)
       (batch : List SRTEntry) (store : Store),
       remote_batch_step oracle (e0 :: rest) batch store = (store, 0, 0)) ∧
    (∀ (batchOracle : Nat → Nat → AttemptOutcome) (est : SRTEntry → Nat) (tbs mbt : Nat)
       (store : Store) (file_id : Nat) (entry_ids : List Nat) (e0 : ProcessedEntry)
       (rest : List ProcessedEntry),
       collect_entries_to_process store entry_ids = e0 :: rest →
       (process_entries_with_openai batchOracle est tbs mbt store file_id entry_ids).success =
         true ∧
       (process_entries_with_openai batchOracle est tbs mbt store file_id
         entry_ids).store.statusLog = store.statusLog ++ ["openai_processing", "completed"]) := by
  refine ⟨remote_batch_step_remote_error, remote_batch_step_on_cons, ?_⟩
  intro batchOracle est tbs mbt store file_id entry_ids e0 rest h
  have hout := remote_pass_nonempty_eq batchOracle est tbs mbt store file_id entry_ids e0 rest h
  rw [hout]
  exact ⟨rfl, by simp [update_raw_transcript_status]⟩

/-- Witness for claim C9: a concrete batch whose remote call exhausts its
retries contributes nothing and the concrete overall call still succeeds. -/
theorem batch_failure_contained_witness :
    remote_batch_step (oracleApiFail 0) [entryPending] [srtE1] storeA = (storeA, 0, 0) ∧
    (process_entries_with_openai oracleApiFail est1 100 10000 storeA 1 [1]).success = true := by
  constructor
  · exact batch_failure_contained.1 (oracleApiFail 0) [entryPending] [srtE1] storeA
      CBError.apiFailure rfl
  · exact (batch_failure_contained.2.2 oracleApiFail est1 100 10000 storeA 1 [1] entryPending []
      rfl).1

/-- Claim C4 (amended): when the transcript exists but parsing yields zero
valid entries, `process_srt_file` reports failure with the no-valid-entries
message, but leaves the transcript status at `processing` — the early
`return` skips both the `processed` transition and the `except` handler, so
no `error` status is written. -/
theorem no_valid_entries_leaves_processing (parse : String → List SRTEntry)
    (localProc : List SRTEntry → List LocalResult) (est : SRTEntry → Nat) (tbs mbt : Nat)
    (store : Store) (file_id : Nat) (t : RawTranscript)
    (ht : get_raw_transcript store file_id = some t) (hp : parse t.file_content = []) :
    (process_srt_file parse localProc est tbs mbt store file_id).success = false ∧
    (process_srt_file parse localProc est tbs mbt store file_id).message =
      "No valid SRT entries found in the file" ∧
    (process_srt_file parse localProc est tbs mbt store file_id).store.statusLog =
      store.statusLog ++ ["processing"] ∧
    (∀ t', get_raw_transcript (process_srt_file parse localProc est tbs mbt store file_id).store
        file_id = some t' → t'.processing_status = "processing") := by
  have hout : process_srt_file parse localProc est tbs mbt store file_id =
      { success := false
        message := "No valid SRT entries found in the file"
        totalEntries := 0
        entriesNeedingOpenai := 0
        store := update_raw_transcript_status store file_id "processing" } := by
    simp [process_srt_file, ht, hp, create_batches, create_batches_go]
  rw [hout]
  refine ⟨rfl, rfl, ?_, ?_⟩
  · simp [update_raw_transcript_status]
  · intro t' ht'
    rw [get_raw_transcript_update] at ht'
    rcases hx : get_raw_transcript store file_id with _ | t0
    · rw [hx] at ht'
      simp at ht'
    · rw [hx] at ht'
      simp only [Option.map_some'] at ht'
      cases ht'
      rfl

/-- Witness for claim C4, with a concrete transcript whose content parses
to nothing. -/
theorem no_valid_entries_leaves_processing_witness :
    (process_srt_file parseNil localProcNil est1 100 10000 storeT 1).success = false ∧
    (process_srt_file parseNil localProcNil est1 100 10000 storeT 1).message =
      "No valid SRT entries found in the file" := by
  have h := no_valid_entries_leaves_processing parseNil localProcNil est1 100 10000 storeT 1
    { id := some 1, filename := "empty.srt", file_content := "garbage",
      processing_status := "pending" } (by decide) rfl
  exact ⟨h.1, h.2.1⟩

/-- Counterexample for claim C4 as stated: on a zero-entry parse the call
reports the no-valid-entries failure, but the transcript's final status is
`processing`, not the `error` the claim requires. -/
theorem no_valid_entries_error_status_counterexample :
    (process_srt_file parseNil localProcNil est1 100 10000 storeT 1).success = false ∧
    (process_srt_file parseNil localProcNil est1 100 10000 storeT 1).message =
      "No valid SRT entries found in the file" ∧
    (get_raw_transcript (process_srt_file parseNil localProcNil est1 100 10000 storeT 1).store
      1).map (fun t => t.processing_status) = some "processing" := by decide

theorem process_all_batches_statusLog (localProc : List SRTEntry → List LocalResult)
    (file_id : Nat) :
    ∀ (batches : List (List SRTEntry)) (store : Store),
    ((process_all_batches_locally localProc file_id batches store).1).statusLog =
      store.statusLog := by
  intro batches
  induction batches with
  | nil => intro store; rfl
  | cons batch rest ih =>
    intro store
    cases hb : build_processed_entries file_id batch 0 (localProc batch) with
    | error err => simp [process_all_batches_locally, hb]
    | ok pes =>
      have ih' := ih (batch_insert_processed_entries store pes)
      rcases hrec : process_all_batches_locally localProc file_id rest
          (batch_insert_processed_entries store pes) with ⟨store2, res⟩
      rw [hrec] at ih'
      cases res with
      | ok p =>
        rcases p with ⟨tt, nn⟩
        simp [process_all_batches_locally, hb, hrec]
        exact ih'
      | error err =>
        simp [process_all_batches_locally, hb, hrec]
        exact ih'

/-- Claim C5 (amended): per invocation, the status writes of the two
workflows are exactly: local pass — none (transcript not found),
`[processing]` (empty batch list), `[processing, processed]` (success), or
`[processing, error]` (exception during batch processing); remote pass —
`[openai_processing, processed]` (empty filtered set) or
`[openai_processing, completed]`.  Hence `completed` is written only right
after `openai_processing` and `error` only right after `processing`; but
`processed` is written right after `openai_processing` on the remote pass's
empty-filter path (not only from `processing`), and the remote pass writes
`openai_processing` unconditionally from whatever status it was invoked in
(so invoking it on a `pending` transcript skips `processing` and
`processed`).  Within one invocation no write follows an `error` write. -/
theorem status_write_traces (parse : String → List SRTEntry)
    (localProc : List SRTEntry → List LocalResult) (batchOracle : Nat → Nat → AttemptOutcome)
    (est : SRTEntry → Nat) (tbs mbt : Nat) (store : Store) (file_id : Nat)
    (entry_ids : List Nat) :
    ((process_srt_file parse localProc est tbs mbt store file_id).store.statusLog =
        store.statusLog ∨
      (process_srt_file parse localProc est tbs mbt store file_id).store.statusLog =
        store.statusLog ++ ["processing"] ∨
      (process_srt_file parse localProc est tbs mbt store file_id).store.statusLog =
        store.statusLog ++ ["processing", "processed"] ∨
      (process_srt_file parse localProc est tbs mbt store file_id).store.statusLog =
        store.statusLog ++ ["processing", "error"]) ∧
    ((process_entries_with_openai batchOracle est tbs mbt store file_id
        entry_ids).store.statusLog = store.statusLog ++ ["openai_processing", "processed"] ∨
      (process_entries_with_openai batchOracle est tbs mbt store file_id
        entry_ids).store.statusLog = store.statusLog ++ ["openai_processing", "completed"]) := by
  constructor
  · cases hg : get_raw_transcript store file_id with
    | none =>
      left
      simp [process_srt_file, hg]
    | some t =>
      cases hb : (create_batches est tbs mbt (parse t.file_content)).isEmpty with
      | true =>
        right; left
        simp [process_srt_file, hg, hb, update_raw_transcript_status]
      | false =>
        rcases hr : process_all_batches_locally localProc file_id
            (create_batches est tbs mbt (parse t.file_content))
            (update_raw_transcript_status store file_id "processing") with ⟨store2, res⟩
        have hlog : store2.statusLog = store.statusLog ++ ["processing"] := by
          have h := process_all_batches_statusLog localProc file_id
            (create_batches est tbs mbt (parse t.file_content))
            (update_raw_transcript_status store file_id "processing")
          rw [hr] at h
          simpa [update_raw_transcript_status] using h
        cases res with
        | ok p =>
          rcases p with ⟨tt, nn⟩
          right; right; left
          have hout : process_srt_file parse localProc est tbs mbt store file_id =
              { success := true
                message := "Successfully processed " ++ Nat.repr tt ++ " entries locally. " ++
                  Nat.repr nn ++ " entries marked for OpenAI processing."
                totalEntries := tt
                entriesNeedingOpenai := nn
                store := update_raw_transcript_status store2 file_id "processed" } := by
            simp [process_srt_file, hg, hb, hr]
          rw [hout]
          simp [update_raw_transcript_status, hlog]
        | error err =>
          right; right; right
          have hout : process_srt_file parse localProc est tbs mbt store file_id =
              { success := false
                message := "Error processing SRT file: " ++ err.message
                totalEntries := 0
                entriesNeedingOpenai := 0
                store := update_raw_transcript_status store2 file_id "error" } := by
            simp [process_srt_file, hg, hb, hr]
          rw [hout]
          simp [update_raw_transcript_status, hlog]
  · cases hc : collect_entries_to_process store entry_ids with
    | nil =>
      left
      rw [remote_pass_empty_eq batchOracle est tbs mbt store file_id entry_ids hc]
      simp [update_raw_transcript_status]
    | cons e0 rest =>
      right
      rw [remote_pass_nonempty_eq batchOracle est tbs mbt store file_id entry_ids e0 rest hc]
      simp [update_raw_transcript_status]

/-- Counterexample for claim C5 as stated: the remote pass invoked on an
already-processed entry writes `processed` immediately after
`openai_processing` — refuting that `processed` is reached only from
`processing` — and invoked on a transcript still in `pending` it writes
`openai_processing` directly, skipping the `processing` and `processed`
states of the forward path. -/
theorem processed_from_openai_processing_counterexample :
    (process_entries_with_openai oracleOk est1 100 10000 storeB 1 [1]).store.statusLog =
      ["openai_processing", "processed"] ∧
    (get_raw_transcript storePending 1).map (fun t => t.processing_status) = some "pending" ∧
    (process_entries_with_openai oracleOk est1 100 10000 storePending 1 [1]).store.statusLog =
      ["openai_processing", "completed"] := by decide

theorem build_processed_entries_defaults (file_id : Nat) (batch : List SRTEntry) :
    ∀ (i : Nat) (results : List LocalResult) (l : List ProcessedEntry),
    build_processed_entries file_id batch i results = .ok l →
    ∀ e, e ∈ l → e.openai_processed = false ∧ e.api_cost = 0 := by
  intro i results
  induction results generalizing i with
  | nil =>
    intro l hl e he
    simp [build_processed_entries] at hl
    subst hl
    simp at he
  | cons result rest ih =>
    intro l hl e he
    simp only [build_processed_entries] at hl
    cases hb : batch[i]? with
    | none =>
      rw [hb] at hl
      simp at hl
    | some b =>
      rw [hb] at hl
      cases hrec : build_processed_entries file_id batch (i + 1) rest with
      | error err =>
        rw [hrec] at hl
        simp at hl
      | ok tail =>
        rw [hrec] at hl
        simp only [Except.ok.injEq] at hl
        subst hl
        rcases List.mem_cons.mp he with he | he
        · subst he
          exact ⟨rfl, rfl⟩
        · exact ih (i + 1) tail hrec e he

/-- Claim C10: every `ProcessedEntry` constructed by the local pass is
created with `openai_processed = false` and `api_cost = 0`: the constructor
call in `_process_all_batches_locally` passes neither field, so both take
the constructor defaults, and consequently every entry the local pass adds
to the store carries those defaults. -/
theorem local_pass_entry_defaults :
    (∀ (file_id : Nat) (batch : List SRTEntry) (i : Nat) (results : List LocalResult)
       (l : List ProcessedEntry),
       build_processed_entries file_id batch i results = .ok l →
       ∀ e, e ∈ l → e.openai_processed = false ∧ e.api_cost = 0) ∧
    (∀ (localProc : List SRTEntry → List LocalResult) (file_id : Nat)
       (batches : List (List SRTEntry)) (store : Store) (e : ProcessedEntry),
       e ∈ ((process_all_batches_locally localProc file_id batches store).1).entries →
       e ∈ store.entries ∨ (e.openai_processed = false ∧ e.api_cost = 0)) := by
  refine ⟨build_processed_entries_defaults, ?_⟩
  intro localProc file_id batches
  induction batches with
  | nil =>
    intro store e he
    exact Or.inl he
  | cons batch rest ih =>
    intro store e he
    rcases hb : build_processed_entries file_id batch 0 (localProc batch) with err | pes
    · rw [show (process_all_batches_locally localProc file_id (batch :: rest) store) =
          (store, .error err) from by simp [process_all_batches_locally, hb]] at he
      exact Or.inl he
    · rcases hrec : process_all_batches_locally localProc file_id rest
          (batch_insert_processed_entries store pes) with ⟨store2, res⟩
      have hfin : ((process_all_batches_locally localProc file_id (batch :: rest) store).1) =
          store2 := by
        cases res with
        | ok p =>
          rcases p with ⟨tt, nn⟩
          simp [process_all_batches_locally, hb, hrec]
        | error err =>
          simp [process_all_batches_locally, hb, hrec]
      rw [hfin] at he
      have hmem : e ∈ ((process_all_batches_locally localProc file_id rest
          (batch_insert_processed_entries store pes)).1).entries := by
        rw [hrec]
        exact he
      rcases ih (batch_insert_processed_entries store pes) e hmem with hin | hp
      · rcases List.mem_append.mp hin with h1 | h2
        · exact Or.inl h1
        · exact Or.inr (build_processed_entries_defaults file_id batch 0 (localProc batch) pes
            hb e h2)
      · exact Or.inr hp

/-- Witness for claim C10, at one concrete batch entry and local result. -/
theorem local_pass_entry_defaults_witness :
    peW.openai_processed = false ∧ peW.api_cost = 0 :=
  local_pass_entry_defaults.1 7 [srtE1] 0 [localResW] [peW] rfl peW (List.mem_singleton.mpr rfl)
